import Mathlib

/-!
Verification of the AR-tag based localizer
(`ar_tag_based_localizer.cpp` from autoware.universe).

The node fuses a single fiducial-marker detection with a known map of
landmark poses to produce a corrected vehicle pose.  The core is
`publish_pose_as_base_link`: a sequence of gating checks (whitelist,
registry, range, frame transform, temporal consistency, spatial
consistency) followed by rigid-transform composition and
distance-dependent covariance inflation.

Numeric values (`double` in the source) are modelled as real numbers;
timestamps are modelled as real-valued seconds.
-/

namespace ArTag

/-- A 3-vector of reals (models `Eigen::Vector3d` / `geometry_msgs::Point`). -/
structure V3 where
  x : ℝ
  y : ℝ
  z : ℝ

/-- A quaternion (models `geometry_msgs::Quaternion`, components x, y, z, w). -/
structure Quat where
  x : ℝ
  y : ℝ
  z : ℝ
  w : ℝ

/-- A 3x3 real matrix with explicit entries (models `Eigen::Matrix3d` /
`tf2::Matrix3x3`), row-major naming. -/
structure M3 where
  a00 : ℝ
  a01 : ℝ
  a02 : ℝ
  a10 : ℝ
  a11 : ℝ
  a12 : ℝ
  a20 : ℝ
  a21 : ℝ
  a22 : ℝ

namespace V3

/-- Vector addition. -/
def add (u v : V3) : V3 := ⟨u.x + v.x, u.y + v.y, u.z + v.z⟩

/-- Vector negation. -/
def neg (v : V3) : V3 := ⟨-v.x, -v.y, -v.z⟩

/-- The zero vector. -/
def zero : V3 := ⟨0, 0, 0⟩

end V3

namespace M3

/-- The identity matrix. -/
def id3 : M3 := ⟨1, 0, 0, 0, 1, 0, 0, 0, 1⟩

/-- Matrix-vector product. -/
def mulVec (m : M3) (v : V3) : V3 :=
  ⟨m.a00 * v.x + m.a01 * v.y + m.a02 * v.z,
   m.a10 * v.x + m.a11 * v.y + m.a12 * v.z,
   m.a20 * v.x + m.a21 * v.y + m.a22 * v.z⟩

/-- Matrix-matrix product. -/
def mul (m n : M3) : M3 :=
  ⟨m.a00 * n.a00 + m.a01 * n.a10 + m.a02 * n.a20,
   m.a00 * n.a01 + m.a01 * n.a11 + m.a02 * n.a21,
   m.a00 * n.a02 + m.a01 * n.a12 + m.a02 * n.a22,
   m.a10 * n.a00 + m.a11 * n.a10 + m.a12 * n.a20,
   m.a10 * n.a01 + m.a11 * n.a11 + m.a12 * n.a21,
   m.a10 * n.a02 + m.a11 * n.a12 + m.a12 * n.a22,
   m.a20 * n.a00 + m.a21 * n.a10 + m.a22 * n.a20,
   m.a20 * n.a01 + m.a21 * n.a11 + m.a22 * n.a21,
   m.a20 * n.a02 + m.a21 * n.a12 + m.a22 * n.a22⟩

/-- Determinant of a 3x3 matrix. -/
def det (m : M3) : ℝ :=
  m.a00 * (m.a11 * m.a22 - m.a12 * m.a21) -
  m.a01 * (m.a10 * m.a22 - m.a12 * m.a20) +
  m.a02 * (m.a10 * m.a21 - m.a11 * m.a20)

/-- Matrix inverse by the adjugate formula (as `Eigen`'s 3x3 `inverse()`
computes it, via cofactors divided by the determinant). -/
noncomputable def inv (m : M3) : M3 :=
  let d := m.det
  ⟨(m.a11 * m.a22 - m.a12 * m.a21) / d,
   (m.a02 * m.a21 - m.a01 * m.a22) / d,
   (m.a01 * m.a12 - m.a02 * m.a11) / d,
   (m.a12 * m.a20 - m.a10 * m.a22) / d,
   (m.a00 * m.a22 - m.a02 * m.a20) / d,
   (m.a02 * m.a10 - m.a00 * m.a12) / d,
   (m.a10 * m.a21 - m.a11 * m.a20) / d,
   (m.a01 * m.a20 - m.a00 * m.a21) / d,
   (m.a00 * m.a11 - m.a01 * m.a10) / d⟩

end M3

namespace Quat

/-- The identity quaternion (x = y = z = 0, w = 1). -/
def one : Quat := ⟨0, 0, 0, 1⟩

/-- Hamilton product of two quaternions (as `tf2::Quaternion::operator*`). -/
def mul (q r : Quat) : Quat :=
  ⟨q.w * r.x + q.x * r.w + q.y * r.z - q.z * r.y,
   q.w * r.y + q.y * r.w + q.z * r.x - q.x * r.z,
   q.w * r.z + q.z * r.w + q.x * r.y - q.y * r.x,
   q.w * r.w - q.x * r.x - q.y * r.y - q.z * r.z⟩

/-- Rotation matrix of a quaternion (the standard conversion used by
`Eigen::Quaterniond::toRotationMatrix`). -/
def toMatrix (q : Quat) : M3 :=
  ⟨1 - 2 * (q.y * q.y + q.z * q.z),
   2 * (q.x * q.y - q.z * q.w),
   2 * (q.x * q.z + q.y * q.w),
   2 * (q.x * q.y + q.z * q.w),
   1 - 2 * (q.x * q.x + q.z * q.z),
   2 * (q.y * q.z - q.x * q.w),
   2 * (q.x * q.z - q.y * q.w),
   2 * (q.y * q.z + q.x * q.w),
   1 - 2 * (q.x * q.x + q.y * q.y)⟩

end Quat

/-- A rigid pose: position plus orientation quaternion
(models `geometry_msgs::Pose`). -/
structure Pose where
  position : V3
  orientation : Quat

/-- An affine rigid transform: linear part plus translation
(models `Eigen::Affine3d`). -/
structure Affine3 where
  linear : M3
  translation : V3

namespace Affine3

/-- Composition of affine transforms
(`Eigen::Affine3d::operator*`: apply `b`, then `a`). -/
def comp (a b : Affine3) : Affine3 :=
  ⟨a.linear.mul b.linear, (a.linear.mulVec b.translation).add a.translation⟩

/-- Inverse of an affine transform (`Eigen::Affine3d::inverse()`):
invert the linear part and map the translation back. -/
noncomputable def inv (t : Affine3) : Affine3 :=
  ⟨t.linear.inv, (t.linear.inv.mulVec t.translation).neg⟩

/-- The identity transform. -/
def idA : Affine3 := ⟨M3.id3, V3.zero⟩

end Affine3

/-- Modelled from the spec: `pose_to_affine3d` of `localization_util`
(`src/util_func.cpp` is not in the sources); the spec's Rigid Transform
Algebra converts a pose (translation + orientation) into a composable
rigid transform.  Linear part is the orientation's rotation matrix,
translation is the position. -/
def pose_to_affine3d (p : Pose) : Affine3 :=
  ⟨p.orientation.toMatrix, p.position⟩

/-- A stamped transform (models the rotation + translation payload of
`geometry_msgs::TransformStamped` returned by `tf2_ros::Buffer::lookupTransform`). -/
structure TransformMsg where
  rotation : Quat
  translation : V3

/-- `tf2::doTransform` on a pose: rotate and translate the position by
the transform, and compose the orientations. -/
def doTransform (p : Pose) (t : TransformMsg) : Pose :=
  ⟨(t.rotation.toMatrix.mulVec p.position).add t.translation,
   t.rotation.mul p.orientation⟩

/-- A stamped pose (models `geometry_msgs::PoseStamped`): timestamp in
seconds, the frame name, and the pose. -/
structure PoseStamped where
  stamp : ℝ
  frame_id : String
  pose : Pose

/-- The latest EKF pose (models the `geometry_msgs::PoseWithCovarianceStamped`
member `latest_ekf_pose_`; the covariance of the input message is never read). -/
structure EkfPose where
  stamp : ℝ
  pose : Pose

/-- The `latest_ekf_pose_` member before any `ekf_pose_callback` has run:
a default-constructed ROS message, zero timestamp, zero position and
identity orientation (`geometry_msgs::Quaternion` defaults to w = 1). -/
def initialEkfPose : EkfPose :=
  ⟨0, ⟨V3.zero, Quat.one⟩⟩

/-- The fused output (models the published
`geometry_msgs::PoseWithCovarianceStamped`): timestamp, fused pose as the
affine transform `map_to_base_link` (the message stores it as
position + quaternion), and the 36 covariance entries. -/
structure FusedPose where
  stamp : ℝ
  poseAffine : Affine3
  covariance : Fin 36 → ℝ

/-- The node state read by `publish_pose_as_base_link`: configuration
parameters declared in `setup()`, the landmark map, the latest EKF pose,
and the tf buffer (modelled as a partial map from the source frame name
to the transform into `base_link`; `none` models a thrown
`tf2::TransformException`). -/
structure NodeState where
  target_tag_ids : List String
  base_covariance : List ℝ
  distance_threshold_squared : ℝ
  ekf_time_tolerance : ℝ
  ekf_position_tolerance : ℝ
  landmark_map : List (String × Pose)
  latest_ekf_pose : EkfPose
  tf_buffer : String → Option TransformMsg

/-- `ekf_pose_callback`: store the incoming message in `latest_ekf_pose_`. -/
def ekf_pose_callback (s : NodeState) (msg : EkfPose) : NodeState :=
  { s with latest_ekf_pose := msg }

/-- Squared Euclidean norm of a position, written exactly as the
component products summed in the range filter. -/
def distSq (v : V3) : ℝ := v.x * v.x + v.y * v.y + v.z * v.z

/-- Modelled from the spec: `norm` of `localization_util`
(`src/util_func.cpp` is not in the sources); the spec's spatial
consistency check compares the Euclidean distance between two positions. -/
noncomputable def norm (p1 p2 : V3) : ℝ :=
  Real.sqrt ((p1.x - p2.x) * (p1.x - p2.x) + (p1.y - p2.y) * (p1.y - p2.y) +
    (p1.z - p2.z) * (p1.z - p2.z))

/-- Covariance inflation coefficient: `std::max(1.0, std::pow(distance/5, 3))`. -/
noncomputable def covCoeff (distance : ℝ) : ℝ :=
  max 1 ((distance / 5) ^ 3)

/-- Final stage of `publish_pose_as_base_link`: construct the output
message — timestamp copied from the detection, pose `map_to_base_link`,
and each covariance entry scaled by `covCoeff` of the detection distance. -/
noncomputable def stage_fuse (s : NodeState) (sensor_to_tag : PoseStamped)
    (map_to_base_link : Affine3) (distance_squared : ℝ) : FusedPose :=
  let distance := Real.sqrt distance_squared
  let coeff := covCoeff distance
  { stamp := sensor_to_tag.stamp
    poseAffine := map_to_base_link
    covariance := fun i => coeff * s.base_covariance.getD i 0 }

/-- Spatial consistency check onward: reject when the fused position
differs from `latest_ekf_pose_` by more than `ekf_position_tolerance_`. -/
noncomputable def stage_spatial (s : NodeState) (sensor_to_tag : PoseStamped)
    (map_to_base_link : Affine3) (distance_squared : ℝ) : Option FusedPose :=
  let diff_position := norm map_to_base_link.translation s.latest_ekf_pose.pose.position
  if diff_position > s.ekf_position_tolerance then none
  else some (stage_fuse s sensor_to_tag map_to_base_link distance_squared)

/-- Temporal consistency check onward: reject when the detection stamp
exceeds the latest EKF stamp by more than `ekf_time_tolerance_`. -/
noncomputable def stage_temporal (s : NodeState) (sensor_to_tag : PoseStamped)
    (map_to_base_link : Affine3) (distance_squared : ℝ) : Option FusedPose :=
  let diff_time := sensor_to_tag.stamp - s.latest_ekf_pose.stamp
  if diff_time > s.ekf_time_tolerance then none
  else stage_spatial s sensor_to_tag map_to_base_link distance_squared

/-- Frame transform check onward: look up the transform from the
detection's frame into `base_link`; a lookup failure (the caught
`tf2::TransformException`) rejects.  On success, transform the detection
into `base_link`, compose
`map_to_base_link = map_to_tag ∘ (base_link_to_tag)⁻¹`, and continue. -/
noncomputable def stage_transform (s : NodeState) (sensor_to_tag : PoseStamped)
    (map_to_tag : Pose) (distance_squared : ℝ) : Option FusedPose :=
  match s.tf_buffer sensor_to_tag.frame_id with
  | none => none
  | some transform =>
    let base_link_to_tag : Pose := doTransform sensor_to_tag.pose transform
    let map_to_tag_affine := pose_to_affine3d map_to_tag
    let base_link_to_tag_affine := pose_to_affine3d base_link_to_tag
    let tag_to_base_link_affine := base_link_to_tag_affine.inv
    let map_to_base_link_affine := map_to_tag_affine.comp tag_to_base_link_affine
    stage_temporal s sensor_to_tag map_to_base_link_affine distance_squared

/-- `publish_pose_as_base_link`: whitelist check, registry check, range
filter, then the transform / temporal / spatial stages.  Returns the
published message, or `none` when any gate rejects. -/
noncomputable def publish_pose_as_base_link (s : NodeState)
    (sensor_to_tag : PoseStamped) (tag_id : String) : Option FusedPose :=
  if ¬ s.target_tag_ids.contains tag_id then none
  else
    match s.landmark_map.lookup tag_id with
    | none => none
    | some map_to_tag =>
      let distance_squared := distSq sensor_to_tag.pose.position
      if s.distance_threshold_squared < distance_squared then none
      else stage_transform s sensor_to_tag map_to_tag distance_squared

/-- `publish_pose_as_base_link` as a state transformer, to state frame
conditions: the source method writes no member, so the state component
is returned unchanged; the only effect is the optional published message. -/
noncomputable def publish_step (s : NodeState) (sensor_to_tag : PoseStamped)
    (tag_id : String) : NodeState × Option FusedPose :=
  (s, publish_pose_as_base_link s sensor_to_tag tag_id)

/-- The configuration consumed by `setup()`. -/
structure Config where
  marker_size : ℝ
  target_tag_ids : List String
  base_covariance : List ℝ
  distance_threshold : ℝ
  ekf_time_tolerance : ℝ
  ekf_position_tolerance : ℝ
  detection_mode : String
  min_marker_size : ℝ

/-- `setup()`: returns `false` (setup failure, node not started) exactly
when `detection_mode` is none of the three recognized values; no other
parameter is validated. -/
def setup (c : Config) : Bool :=
  if c.detection_mode = "DM_NORMAL" then true
  else if c.detection_mode = "DM_FAST" then true
  else if c.detection_mode = "DM_VIDEO_FAST" then true
  else false

/-- Concrete configuration and map for the end-to-end scenario of the spec:
landmark "5" at map pose (10, 0, 0), identity sensor-to-body transform,
reference pose at (8, 0, 0), generous tolerances. -/
def scenarioState : NodeState :=
  { target_tag_ids := ["5"]
    base_covariance := List.replicate 36 1
    distance_threshold_squared := 100
    ekf_time_tolerance := 10
    ekf_position_tolerance := 10
    landmark_map := [("5", ⟨⟨10, 0, 0⟩, Quat.one⟩)]
    latest_ekf_pose := ⟨0, ⟨⟨8, 0, 0⟩, Quat.one⟩⟩
    tf_buffer := fun _ => some ⟨Quat.one, V3.zero⟩ }

/-- The scenario detection: landmark "5" seen at (2, 0, 0) with identity
orientation in the camera frame. -/
def scenarioDetection : PoseStamped := ⟨0, "camera", ⟨⟨2, 0, 0⟩, Quat.one⟩⟩

/-- The message published in the end-to-end scenario. -/
noncomputable def scenarioFused : FusedPose :=
  stage_fuse scenarioState scenarioDetection ⟨M3.id3, ⟨8, 0, 0⟩⟩ 4

/-- A scenario state whose reference pose sits exactly at the position
tolerance away from the fused position (8, 0, 0). -/
def spatialScenarioState : NodeState :=
  { scenarioState with
      ekf_position_tolerance := 3
      latest_ekf_pose := ⟨0, ⟨⟨5, 0, 0⟩, Quat.one⟩⟩ }

/-- A configuration with a recognized detection mode but an empty
base-covariance list. -/
def badCovConfig : Config :=
  { marker_size := 1
    target_tag_ids := ["0"]
    base_covariance := []
    distance_threshold := 1
    ekf_time_tolerance := 1
    ekf_position_tolerance := 1
    detection_mode := "DM_NORMAL"
    min_marker_size := 1 }

/-- Square root of nine. -/
theorem sqrt_nine : Real.sqrt 9 = 3 := by
  rw [show (9 : ℝ) = 3 ^ 2 by norm_num, Real.sqrt_sq (by norm_num : (0 : ℝ) ≤ 3)]

/-- Running the pipeline on the scenario detection publishes `scenarioFused`. -/
theorem scenario_run :
    publish_pose_as_base_link scenarioState scenarioDetection "5" = some scenarioFused := by
  norm_num [publish_pose_as_base_link, stage_transform, stage_temporal, stage_spatial,
    stage_fuse, scenarioState, scenarioDetection, scenarioFused, distSq, norm, covCoeff,
    doTransform, pose_to_affine3d, Affine3.comp, Affine3.inv, M3.inv, M3.det, M3.mul,
    M3.mulVec, M3.id3, Quat.one, Quat.mul, Quat.toMatrix, V3.add, V3.neg, V3.zero,
    List.lookup]

/-- Any published message decomposes as `stage_fuse` applied to the composed
transform `map_to_tag ∘ (base_link_to_tag)⁻¹` and the squared detection
distance, and every gate condition held. -/
theorem publish_some_decomp (s : NodeState) (p : PoseStamped) (tag : String)
    (out : FusedPose) (h : publish_pose_as_base_link s p tag = some out) :
    ∃ (map_to_tag : Pose) (tr : TransformMsg),
      s.target_tag_ids.contains tag = true ∧
      s.landmark_map.lookup tag = some map_to_tag ∧
      distSq p.pose.position ≤ s.distance_threshold_squared ∧
      s.tf_buffer p.frame_id = some tr ∧
      p.stamp - s.latest_ekf_pose.stamp ≤ s.ekf_time_tolerance ∧
      norm ((pose_to_affine3d map_to_tag).comp
          (pose_to_affine3d (doTransform p.pose tr)).inv).translation
        s.latest_ekf_pose.pose.position ≤ s.ekf_position_tolerance ∧
      out = stage_fuse s p ((pose_to_affine3d map_to_tag).comp
        (pose_to_affine3d (doTransform p.pose tr)).inv) (distSq p.pose.position) := by
  simp only [publish_pose_as_base_link] at h
  split at h
  · exact absurd h (by simp)
  next hw =>
    split at h
    · exact absurd h (by simp)
    next map_to_tag hl =>
      split at h
      · exact absurd h (by simp)
      next hrange =>
        simp only [stage_transform] at h
        split at h
        · exact absurd h (by simp)
        next tr htr =>
          simp only [stage_temporal] at h
          split at h
          · exact absurd h (by simp)
          next htime =>
            simp only [stage_spatial] at h
            split at h
            · exact absurd h (by simp)
            next hpos =>
              cases h
              exact ⟨map_to_tag, tr, of_not_not hw, hl, not_lt.mp hrange, htr,
                not_lt.mp htime, not_lt.mp hpos, rfl⟩


/-- Claim C1: for every detection that passes all six gating checks, the
emitted fused pose equals `map_to_tag ∘ (base_link_to_tag)⁻¹`, where
`base_link_to_tag` is the externally supplied sensor-to-body transform
applied to the detection's sensor-to-landmark pose; in particular, for
landmark "5" at map pose (10, 0, 0), a detection at (2, 0, 0), identity
transforms and a reference pose at (8, 0, 0) within tolerances, the
fused position is (8, 0, 0). -/
theorem fused_pose_is_composition :
    (∀ (s : NodeState) (p : PoseStamped) (tag : String) (out : FusedPose),
      publish_pose_as_base_link s p tag = some out →
      ∃ (map_to_tag : Pose) (tr : TransformMsg),
        s.landmark_map.lookup tag = some map_to_tag ∧
        s.tf_buffer p.frame_id = some tr ∧
        out.poseAffine = (pose_to_affine3d map_to_tag).comp
          (pose_to_affine3d (doTransform p.pose tr)).inv) ∧
    (publish_pose_as_base_link scenarioState scenarioDetection "5").map
      (fun out => out.poseAffine.translation) = some ⟨8, 0, 0⟩ := by
  constructor
  · intro s p tag out h
    obtain ⟨mt, tr, -, hl, -, htf, -, -, hout⟩ := publish_some_decomp s p tag out h
    subst hout
    exact ⟨mt, tr, hl, htf, rfl⟩
  · rw [scenario_run]
    rfl

theorem fused_pose_is_composition_witness :
    ∃ (map_to_tag : Pose) (tr : TransformMsg),
      scenarioState.landmark_map.lookup "5" = some map_to_tag ∧
      scenarioState.tf_buffer scenarioDetection.frame_id = some tr ∧
      scenarioFused.poseAffine = (pose_to_affine3d map_to_tag).comp
        (pose_to_affine3d (doTransform scenarioDetection.pose tr)).inv :=
  fused_pose_is_composition.1 scenarioState scenarioDetection "5" scenarioFused scenario_run

/-- Claim C2: the gating checks run in the fixed order whitelist, registry,
range, frame transform, temporal, spatial, and the first failing check
rejects with no fused output: a tag absent from the whitelist or from the
landmark registry never yields a published message regardless of all other
fields, and a published message certifies that every check passed. -/
theorem whitelist_registry_gate :
    (∀ (s : NodeState) (p : PoseStamped) (tag : String),
      s.target_tag_ids.contains tag = false →
      publish_pose_as_base_link s p tag = none) ∧
    (∀ (s : NodeState) (p : PoseStamped) (tag : String),
      s.landmark_map.lookup tag = none →
      publish_pose_as_base_link s p tag = none) ∧
    (∀ (s : NodeState) (p : PoseStamped) (tag : String) (out : FusedPose),
      publish_pose_as_base_link s p tag = some out →
      s.target_tag_ids.contains tag = true ∧
      ∃ (map_to_tag : Pose) (tr : TransformMsg),
        s.landmark_map.lookup tag = some map_to_tag ∧
        distSq p.pose.position ≤ s.distance_threshold_squared ∧
        s.tf_buffer p.frame_id = some tr ∧
        p.stamp - s.latest_ekf_pose.stamp ≤ s.ekf_time_tolerance ∧
        norm ((pose_to_affine3d map_to_tag).comp
            (pose_to_affine3d (doTransform p.pose tr)).inv).translation
          s.latest_ekf_pose.pose.position ≤ s.ekf_position_tolerance) := by
  refine ⟨?_, ?_, ?_⟩
  · intro s p tag hw
    simp only [publish_pose_as_base_link, hw]
    simp
  · intro s p tag hl
    simp only [publish_pose_as_base_link, hl]
    split <;> rfl
  · intro s p tag out h
    obtain ⟨mt, tr, hw, hl, hrange, htf, htime, hpos, -⟩ :=
      publish_some_decomp s p tag out h
    exact ⟨hw, mt, tr, hl, hrange, htf, htime, hpos⟩

theorem whitelist_registry_gate_witness :
    publish_pose_as_base_link scenarioState scenarioDetection "7" = none :=
  (whitelist_registry_gate.1 scenarioState scenarioDetection "7") (by decide)

/-- Claim C3: every covariance entry of an emitted message equals
`covCoeff` of the detection distance (the Euclidean norm of the
sensor-frame translation, the square root of the squared distance used by
the range check) times the corresponding base-covariance entry; the
coefficient is `max 1 ((distance / 5)³)`, so it is never below 1, it is
exactly 1 at distance 3, and exactly 8 at distance 10. -/
theorem covariance_scaling :
    (∀ (s : NodeState) (p : PoseStamped) (tag : String) (out : FusedPose),
      publish_pose_as_base_link s p tag = some out →
      ∀ i : Fin 36, out.covariance i =
        covCoeff (Real.sqrt (distSq p.pose.position)) * s.base_covariance.getD i 0) ∧
    (∀ d : ℝ, 1 ≤ covCoeff d) ∧ covCoeff 3 = 1 ∧ covCoeff 10 = 8 := by
  refine ⟨?_, fun d => le_max_left _ _, ?_, ?_⟩
  · intro s p tag out h i
    obtain ⟨mt, tr, -, -, -, -, -, -, hout⟩ := publish_some_decomp s p tag out h
    subst hout
    rfl
  · rw [covCoeff, max_eq_left (by norm_num)]
  · rw [covCoeff, max_eq_right (by norm_num)]
    norm_num

theorem covariance_scaling_witness :
    scenarioFused.covariance 0 =
      covCoeff (Real.sqrt (distSq scenarioDetection.pose.position)) *
        scenarioState.base_covariance.getD (0 : Fin 36) 0 :=
  covariance_scaling.1 scenarioState scenarioDetection "5" scenarioFused scenario_run 0

/-- Claim C4, counterexample: a configuration whose base-covariance array
does not have 36 entries still passes `setup()` — the array size is not
validated at startup, so such a configuration is not fatal. -/
theorem setup_ignores_covariance_size :
    setup badCovConfig = true ∧ badCovConfig.base_covariance.length ≠ 36 :=
  ⟨rfl, by decide⟩

/-- Claim C4, amended: an unrecognized detection-mode value is fatal at
startup — `setup()` succeeds exactly when the mode is one of the three
recognized values — but the size of the base-covariance array is not
validated: `setup()`'s outcome does not depend on it at all. -/
theorem setup_checks_only_detection_mode :
    (∀ c : Config, setup c = true ↔
      (c.detection_mode = "DM_NORMAL" ∨ c.detection_mode = "DM_FAST" ∨
        c.detection_mode = "DM_VIDEO_FAST")) ∧
    (∀ (c : Config) (cov : List ℝ), setup { c with base_covariance := cov } = setup c) := by
  constructor
  · intro c
    rw [setup]
    split_ifs with h1 h2 h3
    · simp [h1]
    · simp [h2]
    · simp [h3]
    · simp [h1, h2, h3]
  · intro c cov
    rfl

theorem setup_checks_only_detection_mode_witness :
    setup badCovConfig = true :=
  (setup_checks_only_detection_mode.1 badCovConfig).mpr (Or.inl rfl)

/-- Claim C5: the temporal consistency check rejects (no output) exactly
when `Δt = detection stamp − reference stamp` strictly exceeds the time
tolerance; otherwise processing proceeds to the spatial check, and in
particular a negative `Δt` (reference newer than detection) is accepted
whenever the tolerance is nonnegative. -/
theorem temporal_gate (s : NodeState) (p : PoseStamped) (aff : Affine3) (d2 : ℝ) :
    (p.stamp - s.latest_ekf_pose.stamp > s.ekf_time_tolerance →
      stage_temporal s p aff d2 = none) ∧
    (p.stamp - s.latest_ekf_pose.stamp ≤ s.ekf_time_tolerance →
      stage_temporal s p aff d2 = stage_spatial s p aff d2) ∧
    (p.stamp - s.latest_ekf_pose.stamp < 0 → 0 ≤ s.ekf_time_tolerance →
      stage_temporal s p aff d2 = stage_spatial s p aff d2) := by
  refine ⟨fun h => ?_, fun h => ?_, fun h h0 => ?_⟩
  · simp only [stage_temporal]
    rw [if_pos h]
  · simp only [stage_temporal]
    rw [if_neg (not_lt.mpr h)]
  · simp only [stage_temporal]
    rw [if_neg (not_lt.mpr (le_of_lt (lt_of_lt_of_le h h0)))]

theorem temporal_gate_witness :
    stage_temporal { scenarioState with ekf_time_tolerance := 0.5 }
      { scenarioDetection with stamp := 0.6 } Affine3.idA 0 = none ∧
    stage_temporal { scenarioState with ekf_time_tolerance := 0.5 }
      { scenarioDetection with stamp := 0.4 } Affine3.idA 0 =
    stage_spatial { scenarioState with ekf_time_tolerance := 0.5 }
      { scenarioDetection with stamp := 0.4 } Affine3.idA 0 :=
  ⟨(temporal_gate _ _ _ _).1 (by norm_num [scenarioState, scenarioDetection]),
   (temporal_gate _ _ _ _).2.1 (by norm_num [scenarioState, scenarioDetection])⟩

/-- Claim C6: once the whitelist and registry checks pass, the range check
accepts exactly when the squared Euclidean distance of the sensor-frame
translation is at most the configured squared threshold — equality is
accepted, and any strictly larger squared distance rejects with no output. -/
theorem range_gate (s : NodeState) (p : PoseStamped) (tag : String) (map_to_tag : Pose)
    (hw : s.target_tag_ids.contains tag = true)
    (hl : s.landmark_map.lookup tag = some map_to_tag) :
    (s.distance_threshold_squared < distSq p.pose.position →
      publish_pose_as_base_link s p tag = none) ∧
    (distSq p.pose.position ≤ s.distance_threshold_squared →
      publish_pose_as_base_link s p tag =
        stage_transform s p map_to_tag (distSq p.pose.position)) := by
  have hmem : tag ∈ s.target_tag_ids := by simpa using hw
  have hbase : publish_pose_as_base_link s p tag =
      if s.distance_threshold_squared < distSq p.pose.position then none
      else stage_transform s p map_to_tag (distSq p.pose.position) := by
    simp [publish_pose_as_base_link, hl, hmem]
  constructor
  · intro h
    rw [hbase, if_pos h]
  · intro h
    rw [hbase, if_neg (not_lt.mpr h)]

theorem range_gate_witness :
    publish_pose_as_base_link { scenarioState with distance_threshold_squared := 4 }
      scenarioDetection "5" =
    stage_transform { scenarioState with distance_threshold_squared := 4 }
      scenarioDetection ⟨⟨10, 0, 0⟩, Quat.one⟩ (distSq scenarioDetection.pose.position) :=
  (range_gate { scenarioState with distance_threshold_squared := 4 } scenarioDetection "5"
      ⟨⟨10, 0, 0⟩, Quat.one⟩ (by decide) rfl).2
    (by norm_num [scenarioState, scenarioDetection, distSq])

/-- Claim C7: the spatial consistency check rejects (no output) exactly
when the Euclidean distance between the candidate fused position and the
reference position strictly exceeds the position tolerance; a distance
equal to the tolerance is accepted and the message is emitted. -/
theorem spatial_gate (s : NodeState) (p : PoseStamped) (aff : Affine3) (d2 : ℝ) :
    (norm aff.translation s.latest_ekf_pose.pose.position > s.ekf_position_tolerance →
      stage_spatial s p aff d2 = none) ∧
    (norm aff.translation s.latest_ekf_pose.pose.position ≤ s.ekf_position_tolerance →
      stage_spatial s p aff d2 = some (stage_fuse s p aff d2)) := by
  constructor
  · intro h
    simp only [stage_spatial]
    rw [if_pos h]
  · intro h
    simp only [stage_spatial]
    rw [if_neg (not_lt.mpr h)]

theorem spatial_gate_witness :
    stage_spatial spatialScenarioState scenarioDetection ⟨M3.id3, ⟨8, 0, 0⟩⟩ 4 =
    some (stage_fuse spatialScenarioState scenarioDetection ⟨M3.id3, ⟨8, 0, 0⟩⟩ 4) :=
  (spatial_gate _ _ _ _).2
    (by norm_num [norm, spatialScenarioState, scenarioState, sqrt_nine])

/-- Claim C8: the frame transform check queries the transform service for
the detection's sensor frame; a failed lookup (the caught
`tf2::TransformException`) rejects the detection with no fused output, and
a successful lookup continues with the transformed pose — in either case
the stage returns normally, never propagating a fault. -/
theorem transform_gate (s : NodeState) (p : PoseStamped) (map_to_tag : Pose) (d2 : ℝ) :
    (s.tf_buffer p.frame_id = none → stage_transform s p map_to_tag d2 = none) ∧
    (∀ tr : TransformMsg, s.tf_buffer p.frame_id = some tr →
      stage_transform s p map_to_tag d2 =
        stage_temporal s p ((pose_to_affine3d map_to_tag).comp
          (pose_to_affine3d (doTransform p.pose tr)).inv) d2) := by
  constructor
  · intro h
    simp only [stage_transform, h]
  · intro tr h
    simp only [stage_transform, h]

theorem transform_gate_witness :
    stage_transform { scenarioState with tf_buffer := fun _ => none } scenarioDetection
      ⟨⟨10, 0, 0⟩, Quat.one⟩ 4 = none :=
  (transform_gate _ _ _ _).1 rfl

/-- Claim C9: processing one detection never mutates shared node state —
whether fused or rejected, every field of the node state (whitelist, base
covariance, thresholds, tolerances, landmark map, latest EKF pose, tf
buffer) is unchanged, and the only effect is the optional output message. -/
theorem process_is_pure (s : NodeState) (p : PoseStamped) (tag : String) :
    (publish_step s p tag).1 = s ∧
    (publish_step s p tag).1.target_tag_ids = s.target_tag_ids ∧
    (publish_step s p tag).1.base_covariance = s.base_covariance ∧
    (publish_step s p tag).1.distance_threshold_squared = s.distance_threshold_squared ∧
    (publish_step s p tag).1.ekf_time_tolerance = s.ekf_time_tolerance ∧
    (publish_step s p tag).1.ekf_position_tolerance = s.ekf_position_tolerance ∧
    (publish_step s p tag).1.landmark_map = s.landmark_map ∧
    (publish_step s p tag).1.latest_ekf_pose = s.latest_ekf_pose ∧
    (publish_step s p tag).1.tf_buffer = s.tf_buffer ∧
    (publish_step s p tag).2 = publish_pose_as_base_link s p tag :=
  ⟨rfl, rfl, rfl, rfl, rfl, rfl, rfl, rfl, rfl, rfl⟩

/-- Claim C10: before the first reference update, `latest_ekf_pose_` is the
default message with timestamp zero, so any detection whose timestamp
strictly exceeds the time tolerance is rejected at the temporal gate and
the pipeline emits nothing for it. -/
theorem no_fused_pose_before_first_reference (s : NodeState) (p : PoseStamped)
    (tag : String) (h0 : s.latest_ekf_pose = initialEkfPose)
    (ht : p.stamp > s.ekf_time_tolerance) :
    (∀ (aff : Affine3) (d2 : ℝ), stage_temporal s p aff d2 = none) ∧
    publish_pose_as_base_link s p tag = none := by
  have htemp : ∀ (aff : Affine3) (d2 : ℝ), stage_temporal s p aff d2 = none := by
    intro aff d2
    simp only [stage_temporal, h0, initialEkfPose, sub_zero]
    exact if_pos ht
  refine ⟨htemp, ?_⟩
  simp only [publish_pose_as_base_link]
  split
  · rfl
  · split
    · rfl
    · split
      · rfl
      · simp only [stage_transform]
        split
        · rfl
        · exact htemp _ _

theorem no_fused_pose_before_first_reference_witness :
    publish_pose_as_base_link
      { scenarioState with latest_ekf_pose := initialEkfPose, ekf_time_tolerance := 0.5 }
      { scenarioDetection with stamp := 1 } "5" = none :=
  (no_fused_pose_before_first_reference _ _ "5" rfl (by norm_num [scenarioState])).2

end ArTag
